import Mathlib

/-!
Shallow embedding of `src/main.rs` of `rpi-fan-control-rs`, a Raspberry Pi
PWM fan controller, together with proofs about the claims of its
specification.

Modelling conventions:
* `f32`/`f64` arithmetic of the fan curve is modelled over `ℝ` (the curve
  uses `sin`, so exact real arithmetic is the faithful idealisation);
  `f32::consts::PI` becomes `Real.pi`, Rust `f32::min` becomes `min`.
* Timestamps (`Instant`) and RPM samples of the pulse-rate estimator are
  modelled over `ℚ`, timestamps measured in seconds, so that the debounce
  comparison `dt < Duration::from_millis(5)` becomes `dt < 5 / 1000`.
* A Rust `panic!` / `.expect(..)` (process termination) is modelled as
  `Option.none`; `Result<T, E>` becomes `Except E T`.
-/

namespace RpiFan

/-- The PWM frequency constant `PWM_FREQUENCY` of `main.rs` (unused by any
algorithmic branch, kept for completeness). -/
noncomputable def PWM_FREQUENCY : ℝ := 25000

/-- Temperature below which to stop the fan; `OFF_TEMP` of `main.rs`. -/
noncomputable def OFF_TEMP : ℝ := 40

/-- Temperature above which to start the fan; `MIN_TEMP` of `main.rs`. -/
noncomputable def MIN_TEMP : ℝ := 45

/-- Temperature above which to run full speed; `MAX_TEMP` of `main.rs`. -/
noncomputable def MAX_TEMP : ℝ := 75

/-- Duty fraction of the stopped fan; `FAN_OFF` of `main.rs`. -/
noncomputable def FAN_OFF : ℝ := 0

/-- Lowest running duty fraction; `FAN_LOW` of `main.rs`. -/
noncomputable def FAN_LOW : ℝ := 0.1

/-- Maximal duty fraction; `FAN_MAX` of `main.rs`. -/
noncomputable def FAN_MAX : ℝ := 1

/-- Gain of the linear ramp; `FAN_GAIN = (FAN_MAX - FAN_LOW) / (MAX_TEMP - MIN_TEMP)`
of `main.rs`. -/
noncomputable def FAN_GAIN : ℝ := (FAN_MAX - FAN_LOW) / (MAX_TEMP - MIN_TEMP)

/-- The custom fan curve `fan_curve` of `main.rs`, transcribed literally:
`(0.5 * (1.0 - ((PI * temp) / 50.0).sin()) + (FAN_LOW + ((temp - MIN_TEMP).min(MAX_TEMP) * FAN_GAIN))) / 2.0`.
Note that the second argument of Rust's `.min` is `MAX_TEMP` itself,
not `MAX_TEMP - MIN_TEMP`. -/
noncomputable def fan_curve (temp : ℝ) : ℝ :=
  (0.5 * (1 - Real.sin ((Real.pi * temp) / 50))
      + (FAN_LOW + (min (temp - MIN_TEMP) MAX_TEMP * FAN_GAIN)))
    / 2

/-- The pure duty-cycle selection of `handle_fan_speed` in `main.rs`
(the `match cpu_temp { .. }` expression binding `fan_percentage`). -/
noncomputable def fan_percentage (cpu_temp : ℝ) : ℝ :=
  if cpu_temp < OFF_TEMP then FAN_OFF
  else if cpu_temp < MIN_TEMP then FAN_LOW
  else if cpu_temp < MAX_TEMP then fan_curve cpu_temp
  else FAN_MAX

/-- Pulses per revolution of the fan tachometer; `FAN_PULSE` of `main.rs`
(a Noctua fan emits two pulses per revolution). The estimator is modelled
over `ℚ`, so this copy of the constant lives in `ℚ`. -/
def FAN_PULSE : ℚ := 2

/-- The shared state of the pulse-rate estimator: in `main.rs` these are the
two `Lazy` statics `TIME_DIFF : Mutex<Instant>` (timestamp of the most
recent accepted edge, in seconds here) and `RPM : Mutex<Vec<f32>>` (the
accumulated RPM samples). -/
structure EstState where
  last_edge_time : ℚ
  samples : List ℚ
deriving DecidableEq

/-- The initial estimator state: `TIME_DIFF` is initialised to
`Instant::now()` at first access (the parameter `t0`), and `RPM` is
initialised to `vec![0.0]` — a vector that already holds one sample `0.0`. -/
def init_est (t0 : ℚ) : EstState :=
  { last_edge_time := t0, samples := [0] }

/-- The falling-edge interrupt handler registered by `set_async_interrupt`
in `main.rs`: compute `dt = Instant::now() - *time_diff`; if
`dt < Duration::from_millis(5)` return without touching any state;
otherwise push `rpm = ((1.0 / dt.as_secs_f32()) / FAN_PULSE) * 60.0` onto
`RPM` and store the current instant into `TIME_DIFF`. The handler's two
`Instant::now()` calls are both modelled as the edge timestamp `now`. -/
def on_edge (s : EstState) (now : ℚ) : EstState :=
  let dt := now - s.last_edge_time
  if dt < 5 / 1000 then s
  else
    let freq : ℚ := 1 / dt
    let rpm : ℚ := (freq / FAN_PULSE) * 60
    { last_edge_time := now, samples := s.samples ++ [rpm] }

/-- Feeding a whole list of edge timestamps to the interrupt handler, in
order. -/
def run_edges (s : EstState) (ts : List ℚ) : EstState :=
  ts.foldl on_edge s

/-- The number of edges of `ts` that survive the 5 ms debounce guard when
processed from state `s` (the edges `on_edge` does not discard). -/
def accepted_count (s : EstState) : List ℚ → ℕ
  | [] => 0
  | t :: ts =>
      (if t - s.last_edge_time < 5 / 1000 then 0 else 1)
        + accepted_count (on_edge s t) ts

/-- The per-tick drain of the estimator in `main.rs` (lines 178–184 of the
`loop`), transcribed operation by operation:
`rpm_guard.drain(..)` yields every element and leaves the vector empty;
`.reduce(|acc, x| acc + x).unwrap_or(0.0)` sums them (`0.0` when none);
only then is the divisor `rpm_guard.len() as f32` read — and at that point
the vector has already been emptied by `drain(..)`, so the divisor is the
length of the emptied vector, `0`, not the number of samples. (In IEEE
`f32` the division by `0.0` produces `NaN` or `∞`; in this `ℚ` model it
produces `0` by Lean's `x / 0 = 0` convention — under either semantics the
result is not the arithmetic mean.) Finally `*rpm_guard = Vec::new()`
leaves the sample sequence empty. Returns the printed `avg_rpm` value
paired with the post-tick state. -/
def drain (s : EstState) : ℚ × EstState :=
  let drained := s.samples
  let total : ℚ := drained.foldl (fun acc x => acc + x) 0
  let emptied : EstState := { s with samples := [] }
  (total / (emptied.samples.length : ℚ), emptied)

/-- The arithmetic mean the specification describes for `drain()`:
mean of all accumulated samples, `0` if there are none. This definition
follows the spec's words, for comparison with `drain` above. -/
def spec_mean (l : List ℚ) : ℚ :=
  if l = [] then 0 else l.foldl (fun acc x => acc + x) 0 / (l.length : ℚ)

/-- The classes of `std::io::ErrorKind` that `get_cpu_temp` in `main.rs`
distinguishes, plus several of the kinds its catch-all `_` arm absorbs. -/
inductive TempErrKind
  | permissionDenied
  | notFound
  | interrupted
  | timedOut
  | unexpectedEof
  | other
deriving DecidableEq

/-- The outcome of `std::fs::read_to_string("/sys/class/thermal/thermal_zone0/temp")`:
either the file's contents (modelled as the already-parsed millidegree
value the string holds) or an I/O error of some kind. -/
inductive TempRead
  | ok (millideg : ℚ)
  | err (k : TempErrKind)
deriving DecidableEq

/-- The function `get_cpu_temp` of `main.rs`: on `Ok(temp)` parse and divide
by `1000.0`; on `Err(e)` with kind `PermissionDenied` or `NotFound`,
`panic!` (modelled as `none`); on any other error kind substitute the
string `"45000"`, which then parses and divides to `45.0`. -/
def get_cpu_temp : TempRead → Option ℚ
  | .ok millideg => some (millideg / 1000)
  | .err .permissionDenied => none
  | .err .notFound => none
  | .err _ => some (45000 / 1000)

/-- The error type of a failed `Pwm::set_duty_cycle` write:
`rppal::pwm::Error::Io(e)` is unwrapped to the inner `std::io::Error` by
`handle_fan_speed`, modelled here as an abstract error code. -/
inductive PwmWriteErr
  | ioError (code : ℕ)
deriving DecidableEq

/-- The function `handle_fan_speed` of `main.rs`: select the duty cycle by
the temperature match, call `pwm.set_duty_cycle` with it, propagate a write
failure with `?`, and on success return `fan_percentage * 100.0`. The
actuator is the function argument `set_duty_cycle`; the source calls it
exactly once per invocation. -/
noncomputable def handle_fan_speed (cpu_temp : ℝ)
    (set_duty_cycle : ℝ → Except PwmWriteErr Unit) : Except PwmWriteErr ℝ :=
  let p := fan_percentage cpu_temp
  match set_duty_cycle p with
  | .error e => .error e
  | .ok _ => .ok (p * 100)

/-- The fan-speed step of each tick of `main`'s `loop`:
`handle_fan_speed(cpu_temp, &mut pwm_pin).expect("Error setting fan speed")`.
`.expect` panics on `Err`, terminating the process — modelled as `none`;
on `Ok` the tick continues with the returned percentage. -/
noncomputable def fan_speed_step (cpu_temp : ℝ)
    (set_duty_cycle : ℝ → Except PwmWriteErr Unit) : Option ℝ :=
  match handle_fan_speed cpu_temp set_duty_cycle with
  | .error _ => none
  | .ok p => some p

/-- The sinusoidal ramp exactly as the specification words it:
`0.5 * (1 - sin(π·temp/50))`. -/
noncomputable def spec_sin_ramp (t : ℝ) : ℝ :=
  0.5 * (1 - Real.sin (Real.pi * t / 50))

/-- The linear ramp exactly as the specification words it:
`fan_low + min(temp - min_temp, max_temp - min_temp) * gain` with
`gain = (fan_max - fan_low) / (max_temp - min_temp)`. Note the second
argument of the `min` differs from the source's (`MAX_TEMP - MIN_TEMP`
here, bare `MAX_TEMP` in `fan_curve`). -/
noncomputable def spec_linear_ramp (t : ℝ) : ℝ :=
  FAN_LOW + min (t - MIN_TEMP) (MAX_TEMP - MIN_TEMP) * FAN_GAIN

/-- Claim C2: the temperature-to-duty mapping is piecewise — below
`OFF_TEMP` it returns exactly `0.0`; on `[OFF_TEMP, MIN_TEMP)` it returns
exactly `FAN_LOW = 0.1`; at `MAX_TEMP` and above it returns exactly
`FAN_MAX = 1.0`. -/
theorem claim_C2_piecewise :
    (∀ t : ℝ, t < OFF_TEMP → fan_percentage t = 0)
      ∧ (∀ t : ℝ, OFF_TEMP ≤ t → t < MIN_TEMP → fan_percentage t = 0.1)
      ∧ (fan_percentage MAX_TEMP = 1
          ∧ ∀ t : ℝ, MAX_TEMP < t → fan_percentage t = 1) := by
  refine ⟨fun t h => ?_, fun t h1 h2 => ?_, ?_, fun t h => ?_⟩
  · rw [fan_percentage, if_pos h]
    rfl
  · rw [fan_percentage, if_neg (not_lt.mpr h1), if_pos h2]
    norm_num [FAN_LOW]
  · simp only [fan_percentage, OFF_TEMP, MIN_TEMP, MAX_TEMP, FAN_MAX]
    norm_num
  · simp only [MAX_TEMP] at h
    simp only [fan_percentage, OFF_TEMP, MIN_TEMP, MAX_TEMP, FAN_MAX]
    rw [if_neg (by linarith), if_neg (by linarith), if_neg (by linarith)]

/-- Witness for C2 at the concrete temperatures 35, 42 and 80. -/
theorem claim_C2_piecewise_witness :
    ((35 : ℝ) < OFF_TEMP ∧ fan_percentage 35 = 0)
      ∧ (OFF_TEMP ≤ (42 : ℝ) ∧ (42 : ℝ) < MIN_TEMP ∧ fan_percentage 42 = 0.1)
      ∧ (MAX_TEMP < (80 : ℝ) ∧ fan_percentage 80 = 1) :=
  ⟨⟨by norm_num [OFF_TEMP], claim_C2_piecewise.1 35 (by norm_num [OFF_TEMP])⟩,
    ⟨by norm_num [OFF_TEMP], by norm_num [MIN_TEMP],
      claim_C2_piecewise.2.1 42 (by norm_num [OFF_TEMP]) (by norm_num [MIN_TEMP])⟩,
    ⟨by norm_num [MAX_TEMP], claim_C2_piecewise.2.2.2 80 (by norm_num [MAX_TEMP])⟩⟩

/-- Claim C3: for every real temperature the duty cycle produced by the
temperature match (including the blended `fan_curve` branch on
`[MIN_TEMP, MAX_TEMP)`) lies within `[0, 1]`. -/
theorem claim_C3_range (t : ℝ) : 0 ≤ fan_percentage t ∧ fan_percentage t ≤ 1 := by
  have hs1 : Real.sin ((Real.pi * t) / 50) ≤ 1 := Real.sin_le_one _
  have hs2 : -1 ≤ Real.sin ((Real.pi * t) / 50) := Real.neg_one_le_sin _
  simp only [fan_percentage, OFF_TEMP, MIN_TEMP, MAX_TEMP, FAN_OFF, FAN_LOW, FAN_MAX]
  split_ifs with h1 h2 h3
  · norm_num
  · norm_num
  · have h45 : (45 : ℝ) ≤ t := not_lt.mp h2
    simp only [fan_curve, FAN_LOW, FAN_GAIN, FAN_MAX, MIN_TEMP, MAX_TEMP]
    rw [min_eq_left (by linarith : t - 45 ≤ (75 : ℝ))]
    constructor <;> nlinarith [hs1, hs2, h45, h3]
  · norm_num

/-- Witness for C3 at the concrete temperature 60 (inside the blended
branch). -/
theorem claim_C3_range_witness :
    0 ≤ fan_percentage 60 ∧ fan_percentage 60 ≤ 1 :=
  claim_C3_range 60

/-- Claim C4: on `[MIN_TEMP, MAX_TEMP)` the duty cycle is the arithmetic
mean of the specification's sinusoidal ramp and linear ramp. (On this
interval the source's `min (t - MIN_TEMP) MAX_TEMP` and the
specification's `min (t - MIN_TEMP) (MAX_TEMP - MIN_TEMP)` agree, both
evaluating to `t - MIN_TEMP`.) -/
theorem claim_C4_blend (t : ℝ) (h1 : MIN_TEMP ≤ t) (h2 : t < MAX_TEMP) :
    fan_percentage t = (spec_sin_ramp t + spec_linear_ramp t) / 2 := by
  have hoff : ¬ t < OFF_TEMP := by
    simp only [OFF_TEMP]
    simp only [MIN_TEMP] at h1
    linarith
  rw [fan_percentage, if_neg hoff, if_neg (not_lt.mpr h1), if_pos h2]
  simp only [MIN_TEMP, MAX_TEMP] at h1 h2
  simp only [fan_curve, spec_sin_ramp, spec_linear_ramp, MIN_TEMP, MAX_TEMP]
  rw [min_eq_left (by linarith : t - 45 ≤ (75 : ℝ)),
    min_eq_left (by linarith : t - 45 ≤ (75 : ℝ) - 45)]

/-- Witness for C4 at the concrete temperature 60. -/
theorem claim_C4_blend_witness :
    MIN_TEMP ≤ (60 : ℝ) ∧ (60 : ℝ) < MAX_TEMP
      ∧ fan_percentage 60 = (spec_sin_ramp 60 + spec_linear_ramp 60) / 2 :=
  ⟨by norm_num [MIN_TEMP], by norm_num [MAX_TEMP],
    claim_C4_blend 60 (by norm_num [MIN_TEMP]) (by norm_num [MAX_TEMP])⟩

/-- Claim C5: an edge arriving less than 5 ms after the last accepted edge
is discarded without any state mutation — `on_edge` returns the state
unchanged (both `last_edge_time` and `samples`). The hypothesis
`last_edge_time ≤ now` reflects the monotonic clock (Rust `Instant`
subtraction is only defined for non-decreasing time). -/
theorem claim_C5_debounce (s : EstState) (now : ℚ)
    (_hmono : s.last_edge_time ≤ now)
    (hdt : now - s.last_edge_time < 5 / 1000) : on_edge s now = s := by
  simp [on_edge, hdt]

/-- Witness for C5: an edge 1 ms after the last accepted edge is dropped. -/
theorem claim_C5_debounce_witness :
    (EstState.mk 0 [0]).last_edge_time ≤ (1 / 1000 : ℚ)
      ∧ (1 / 1000 : ℚ) - (EstState.mk 0 [0]).last_edge_time < 5 / 1000
      ∧ on_edge (EstState.mk 0 [0]) (1 / 1000) = EstState.mk 0 [0] :=
  ⟨by norm_num, by norm_num,
    claim_C5_debounce (EstState.mk 0 [0]) (1 / 1000) (by norm_num) (by norm_num)⟩

/-- Claim C6: an accepted edge (`dt ≥ 5 ms`) appends exactly one sample
equal to `((1 / dt) / 2) * 60` (with `FAN_PULSE = 2` pulses per
revolution) and sets `last_edge_time` to the edge timestamp. -/
theorem claim_C6_accept (s : EstState) (now : ℚ)
    (hdt : ¬ now - s.last_edge_time < 5 / 1000) :
    (on_edge s now).samples
        = s.samples ++ [((1 / (now - s.last_edge_time)) / 2) * 60]
      ∧ (on_edge s now).last_edge_time = now := by
  constructor <;> simp [on_edge, hdt, FAN_PULSE]

/-- Witness for C6: an edge one second after the last accepted edge appends
the single sample `30` RPM. -/
theorem claim_C6_accept_witness :
    (on_edge (EstState.mk 0 [0]) 1).samples
        = (EstState.mk 0 [0]).samples
            ++ [((1 / ((1 : ℚ) - (EstState.mk 0 [0]).last_edge_time)) / 2) * 60]
      ∧ (on_edge (EstState.mk 0 [0]) 1).last_edge_time = 1 :=
  claim_C6_accept (EstState.mk 0 [0]) 1 (by norm_num)

/-- Claim C1 is false of the code: the drain expression divides the sample
sum by `rpm_guard.len()` evaluated after `Vec::drain(..)` has already
emptied the vector, so the divisor is `0` and the result is never the
arithmetic mean of a non-empty batch. At the concrete state holding the
single sample `120`: the modelled drain returns `0` (IEEE `f32` would
give `∞`), while the mean the claim demands is `120`; the sequence is
left empty as claimed. -/
theorem claim_C1_drain_not_mean :
    (drain (EstState.mk 0 [120])).1 = 0
      ∧ spec_mean [120] = 120
      ∧ (drain (EstState.mk 0 [120])).1 ≠ spec_mean [120]
      ∧ (drain (EstState.mk 0 [120])).2.samples = [] := by
  refine ⟨?_, ?_, ?_, ?_⟩ <;> norm_num [drain, spec_mean]

/-- Helper for C10: running any list of edges grows the sample sequence by
exactly the number of edges that survive the debounce guard. -/
theorem run_edges_samples_length (s : EstState) (ts : List ℚ) :
    (run_edges s ts).samples.length = s.samples.length + accepted_count s ts := by
  induction ts generalizing s with
  | nil => simp [run_edges, accepted_count]
  | cons t ts ih =>
      simp only [run_edges, List.foldl_cons, accepted_count]
      have h2 := ih (on_edge s t)
      simp only [run_edges] at h2
      rw [h2]
      by_cases h : t - s.last_edge_time < 5 / 1000
      · simp [on_edge, h]
      · simp only [on_edge, h, if_neg, if_false]
        simp
        omega

/-- Claim C10: the estimator's initial sample sequence is not empty — it is
exactly `[0]`, one sample of value `0.0` present before any tachometer
edge — and after processing any list of edges the sequence holds one more
sample than the number of accepted (non-debounced) edges. -/
theorem claim_C10_initial_sample (t0 : ℚ) (ts : List ℚ) :
    (init_est t0).samples = [0]
      ∧ (run_edges (init_est t0) ts).samples.length
          = accepted_count (init_est t0) ts + 1 := by
  refine ⟨rfl, ?_⟩
  rw [run_edges_samples_length]
  simp [init_est]
  omega

/-- Witness for C10 with one accepted edge at `t = 1` from `t0 = 0`. -/
theorem claim_C10_initial_sample_witness :
    (init_est 0).samples = [0]
      ∧ (run_edges (init_est 0) [1]).samples.length
          = accepted_count (init_est 0) [1] + 1 :=
  claim_C10_initial_sample 0 [1]

/-- Claim C7: reading the CPU temperature aborts the process (`none`)
exactly for the error kinds `PermissionDenied` and `NotFound`; every other
read error yields the fallback value `45` °C (`"45000"` parsed, divided by
1000) and never terminates. -/
theorem claim_C7_temp_errors (k : TempErrKind) :
    get_cpu_temp (.err k)
      = (if k = .permissionDenied ∨ k = .notFound then none else some 45) := by
  cases k <;> norm_num [get_cpu_temp] <;> exact ⟨by decide, by decide⟩

/-- Witness for C7 at the unclassified error kind. -/
theorem claim_C7_temp_errors_witness :
    get_cpu_temp (.err .other)
      = (if TempErrKind.other = .permissionDenied ∨ TempErrKind.other = .notFound
          then none else some 45) :=
  claim_C7_temp_errors .other

/-- Claim C8: when the actuator write `set_duty_cycle` fails on a tick, the
error propagates out of `handle_fan_speed` unchanged (the `?` operator)
and the tick's `.expect` terminates the process (`fan_speed_step` yields
`none`, no continuation state) — the write is issued once per tick and is
never retried. -/
theorem claim_C8_actuator_fatal (cpu_temp : ℝ)
    (set_duty_cycle : ℝ → Except PwmWriteErr Unit) (e : PwmWriteErr)
    (hw : set_duty_cycle (fan_percentage cpu_temp) = .error e) :
    handle_fan_speed cpu_temp set_duty_cycle = .error e
      ∧ fan_speed_step cpu_temp set_duty_cycle = none := by
  constructor <;> simp [handle_fan_speed, fan_speed_step, hw]

/-- Witness for C8 with a concrete always-failing actuator. -/
theorem claim_C8_actuator_fatal_witness :
    (fun _ : ℝ => (Except.error (PwmWriteErr.ioError 5) : Except PwmWriteErr Unit))
        (fan_percentage 50) = Except.error (PwmWriteErr.ioError 5)
      ∧ handle_fan_speed 50
          (fun _ => Except.error (PwmWriteErr.ioError 5)) = Except.error (PwmWriteErr.ioError 5)
      ∧ fan_speed_step 50
          (fun _ => Except.error (PwmWriteErr.ioError 5)) = none := by
  refine ⟨rfl, ?_⟩
  exact claim_C8_actuator_fatal 50 (fun _ => Except.error (PwmWriteErr.ioError 5))
    (PwmWriteErr.ioError 5) rfl

end RpiFan
